import Mathlib

/-!
# Verification of the realtime command-and-simulation engine (backend/app/ws.py)

Shallow embedding of the parts of `backend/app/ws.py` (and the constants of
`backend/app/physics_config.py`, `backend/app/enums.py`) that the checked
claims are about:

* the idempotency cache (`CommandIdempotencyStore`) and the command frame
  dispatch of `realtime_ws_endpoint`;
* the lesson lifecycle state machine (`apply_start_lesson_command`,
  `apply_pause_lesson_command`, `apply_resume_lesson_command`,
  `apply_finish_lesson_command`, the timeout branch of
  `apply_lesson_runtime_tick_for_session`);
* the tick scheduler's delta accounting
  (`apply_lesson_runtime_tick_for_session`, lines 2299-2333);
* the fire/smoke area update and the hydraulic resource-chain resolver of
  `apply_fire_dynamics_tick`;
* the combat-area activation gate (`has_rtp_command_point_for_combat_area`,
  `assert_combat_area_is_activated_by_rtp`,
  `apply_create_resource_deployment_command`);
* the disabled `set_radio_interference` command.

Python floats are modelled as rationals (`ℚ`); Python's `round` (which rounds
half to even) is modelled by `roundHalfEven` below; `round(x, 2)` by `round2`.
Raising `HTTPException` is modelled by `Except WsError`; a SQLAlchemy session
that is closed without `commit` discards its writes, so a handler that raises
before `db.commit()` is modelled as returning `Except.error`, and the
persisted state after an error is the pre-command state.
-/

namespace MchsWs

/-- Python's `round` on a float rounds half to even (banker's rounding), so
`int(round(x))` is this function: `⌊q⌋` when the fractional part is below
1/2, `⌊q⌋ + 1` when above, and the even neighbour at exactly 1/2. -/
def roundHalfEven (q : ℚ) : ℤ :=
  if q - ⌊q⌋ < 1/2 then ⌊q⌋
  else if 1/2 < q - ⌊q⌋ then ⌊q⌋ + 1
  else if ⌊q⌋ % 2 = 0 then ⌊q⌋ else ⌊q⌋ + 1

/-- Python's `round(x, 2)` (two decimal places), as used for every value the
tick writes back into the runtime JSON maps. -/
def round2 (q : ℚ) : ℚ := (roundHalfEven (q * 100) : ℚ) / 100

/-- Python `str.strip()`, over the underlying character list (so that the
kernel can evaluate it; `String.trim` is byte-position based). -/
def pyStrip (s : String) : String :=
  ⟨((s.data.dropWhile Char.isWhitespace).reverse.dropWhile
      Char.isWhitespace).reverse⟩

/-- Python `str.upper()`; `Char.toUpper` only uppercases ASCII, which covers
every status/command-point string compared; Cyrillic aliases are matched as
written in the source tables. -/
def pyUpper (s : String) : String := ⟨s.data.map Char.toUpper⟩

/-! ## TickScheduler: delta accounting of `apply_lesson_runtime_tick_for_session`
(ws.py lines 2299-2333). -/

/-- `SIMULATION_MAX_STEP_REAL_SEC` (ws.py line 289). -/
def SIMULATION_MAX_STEP_REAL_SEC : ℤ := 4

/-- The clamp `time_multiplier = max(0.1, min(30.0, time_multiplier))`
(ws.py line 2313). -/
def clampTimeMultiplier (m : ℚ) : ℚ := max (1/10) (min 30 m)

/-- The three per-tick deltas computed by the scheduler. -/
structure TickDelta where
  delta_real_sec : ℤ
  dropped_ticks_last : ℤ
  delta_game_sec : ℤ
deriving Repr, DecidableEq

/-- Delta accounting of `apply_lesson_runtime_tick_for_session` (ws.py lines
2305-2314).  `raw_delta_real_sec = int((tick_time - last_tick_at).total_seconds())`
is the truncated wall-clock delta in whole seconds; `none` models the early
`return False` when it is not positive.  The game delta is
`max(1, int(round(delta_real_sec * time_multiplier)))`, with Python `round`
being round-half-to-even. -/
def lessonTickDelta (raw_delta_real_sec : ℤ) (time_multiplier : ℚ) :
    Option TickDelta :=
  if raw_delta_real_sec ≤ 0 then none
  else
    let delta_real_sec := min raw_delta_real_sec SIMULATION_MAX_STEP_REAL_SEC
    let dropped_ticks_last := max 0 (raw_delta_real_sec - delta_real_sec)
    let m := clampTimeMultiplier time_multiplier
    let delta_game_sec := max 1 (roundHalfEven ((delta_real_sec : ℚ) * m))
    some ⟨delta_real_sec, dropped_ticks_last, delta_game_sec⟩

/-- `elapsed_game_sec += delta_game_sec` (ws.py lines 2316-2321): the lesson's
elapsed game-time counter after one runtime tick with wall-clock delta `raw`
and raw session multiplier `m` (`elapsed` is left unchanged when the tick
returns early). -/
def applyTickElapsed (elapsed : ℤ) (raw : ℤ) (m : ℚ) : ℤ :=
  match lessonTickDelta raw m with
  | none => elapsed
  | some td => elapsed + td.delta_game_sec

/-! ## LessonStateMachine (ws.py lines 1042-1070, 2278-2399, 4434-4627). -/

/-- `SessionStatus` (enums.py). -/
inductive SessionStatus
  | CREATED
  | IN_PROGRESS
  | PAUSED
  | COMPLETED
deriving Repr, DecidableEq

/-- An `HTTPException(status_code, detail)` raised by a command handler. -/
structure WsError where
  status_code : ℕ
  detail : String
deriving Repr, DecidableEq

/-- The lifecycle state names of `training_lesson` (ws.py lines 293-296). -/
def LESSON_LIFECYCLE_VALUES : List String :=
  ["DRAFT", "RUNNING", "PAUSED", "COMPLETED"]

/-- `normalize_lesson_lifecycle_status` (ws.py lines 1042-1060).  `none`
models a missing JSON key (`str(None or "") = ""`). -/
def normalize_lesson_lifecycle_status
    (raw_lifecycle_status raw_legacy_status : Option String) : String :=
  let lifecycle := pyUpper (pyStrip (raw_lifecycle_status.getD ""))
  let legacy := pyUpper (pyStrip (raw_legacy_status.getD ""))
  if lifecycle ∈ LESSON_LIFECYCLE_VALUES then lifecycle
  else if legacy = "IN_PROGRESS" ∨ legacy = "RUNNING" then "RUNNING"
  else if legacy = "PAUSED" then "PAUSED"
  else if legacy = "COMPLETED" then "COMPLETED"
  else if legacy = "CREATED" ∨ legacy = "DRAFT" then "DRAFT"
  else "DRAFT"

/-- `lesson_legacy_status_from_lifecycle` (ws.py lines 1063-1070). -/
def lesson_legacy_status_from_lifecycle (lifecycle_status : String) : String :=
  if lifecycle_status = "RUNNING" then "IN_PROGRESS"
  else if lifecycle_status = "PAUSED" then "PAUSED"
  else if lifecycle_status = "COMPLETED" then "COMPLETED"
  else "CREATED"

/-- The slice of session + snapshot state the lesson lifecycle handlers read
and write: `session.status`, `training_lesson["lifecycle_status"]` and
`training_lesson["status"]` (other fields they write — timers, usernames,
counters — do not affect any transition decision). -/
structure LessonSessionState where
  status : SessionStatus
  lifecycle_status : String
  legacy_status : String
deriving Repr, DecidableEq

/-- The normalized lifecycle the handlers test (ws.py lines 4514-4516). -/
def lessonLifecycleOf (st : LessonSessionState) : String :=
  normalize_lesson_lifecycle_status (some st.lifecycle_status) (some st.legacy_status)

/-- `apply_start_lesson_command` (ws.py lines 4434-4493): rejects unless the
session is in the initial CREATED (= DRAFT) status, then marks the lesson
RUNNING.  The checkpoint/fire-sync/timer writes performed on success do not
touch the modelled transition state. -/
def apply_start_lesson_command (st : LessonSessionState) :
    Except WsError LessonSessionState :=
  if st.status = .IN_PROGRESS then .error ⟨409, "Lesson already started"⟩
  else if st.status = .PAUSED then
    .error ⟨409, "Lesson is paused. Use resume_lesson instead of start_lesson"⟩
  else if st.status = .COMPLETED then
    .error ⟨409, "Lesson already completed. Create new session to restart"⟩
  else
    .ok ⟨.IN_PROGRESS, "RUNNING", lesson_legacy_status_from_lifecycle "RUNNING"⟩

/-- `apply_pause_lesson_command` (ws.py lines 4496-4536).  Both raises happen
before any state write. -/
def apply_pause_lesson_command (st : LessonSessionState) :
    Except WsError LessonSessionState :=
  if st.status ≠ .IN_PROGRESS then
    .error ⟨409, "Only IN_PROGRESS lesson can be paused"⟩
  else if lessonLifecycleOf st ≠ "RUNNING" then
    .error ⟨409, "Lesson is not running"⟩
  else
    .ok ⟨.PAUSED, "PAUSED", lesson_legacy_status_from_lifecycle "PAUSED"⟩

/-- `apply_resume_lesson_command` (ws.py lines 4539-4581). -/
def apply_resume_lesson_command (st : LessonSessionState) :
    Except WsError LessonSessionState :=
  if st.status ≠ .PAUSED then .error ⟨409, "Lesson is not paused"⟩
  else if ¬ (lessonLifecycleOf st = "PAUSED" ∨ lessonLifecycleOf st = "RUNNING") then
    .error ⟨409, "Lesson state does not allow resume"⟩
  else
    .ok ⟨.IN_PROGRESS, "RUNNING", lesson_legacy_status_from_lifecycle "RUNNING"⟩

/-- `apply_finish_lesson_command` (ws.py lines 4584-4627). -/
def apply_finish_lesson_command (st : LessonSessionState) :
    Except WsError LessonSessionState :=
  if ¬ (st.status = .IN_PROGRESS ∨ st.status = .PAUSED) then
    .error ⟨409, "Lesson is not active"⟩
  else
    .ok ⟨.COMPLETED, "COMPLETED", lesson_legacy_status_from_lifecycle "COMPLETED"⟩

/-- Status effect of one `apply_lesson_runtime_tick_for_session` (ws.py lines
2278-2399): early return unless the session is IN_PROGRESS with a RUNNING
lesson; otherwise the lifecycle strings are re-normalized to RUNNING and the
automatic timeout (`elapsed_game_sec >= time_limit_sec > 0`) completes the
lesson. -/
def lessonRuntimeTickStatus (st : LessonSessionState) (elapsed : ℤ)
    (time_limit_sec : Option ℤ) : LessonSessionState :=
  if st.status ≠ .IN_PROGRESS then st
  else if lessonLifecycleOf st ≠ "RUNNING" then st
  else
    match time_limit_sec with
    | some l =>
        if 0 < l ∧ l ≤ elapsed then
          ⟨.COMPLETED, "COMPLETED", lesson_legacy_status_from_lifecycle "COMPLETED"⟩
        else ⟨.IN_PROGRESS, "RUNNING", lesson_legacy_status_from_lifecycle "RUNNING"⟩
    | none => ⟨.IN_PROGRESS, "RUNNING", lesson_legacy_status_from_lifecycle "RUNNING"⟩

/-- The lifecycle state a session status denotes (CREATED sessions carry a
DRAFT lesson, IN_PROGRESS a RUNNING one, ...). -/
def statusLifecycle : SessionStatus → String
  | .CREATED => "DRAFT"
  | .IN_PROGRESS => "RUNNING"
  | .PAUSED => "PAUSED"
  | .COMPLETED => "COMPLETED"

/-- The legal lesson transitions of the spec:
DRAFT→RUNNING, RUNNING→PAUSED, PAUSED→RUNNING, RUNNING|PAUSED→COMPLETED. -/
def legalLessonEdge (a b : String) : Bool :=
  (a = "DRAFT" && b = "RUNNING") ||
  (a = "RUNNING" && b = "PAUSED") ||
  (a = "PAUSED" && b = "RUNNING") ||
  (a = "RUNNING" && b = "COMPLETED") ||
  (a = "PAUSED" && b = "COMPLETED")

/-- `realtime_ws_endpoint` commits only when the handler returns without
raising; on an `HTTPException` the `SessionLocal` context is closed without
commit, so the persisted state is the pre-command state. -/
def commitLessonCommand
    (handler : LessonSessionState → Except WsError LessonSessionState)
    (st : LessonSessionState) : LessonSessionState :=
  match handler st with
  | .ok st' => st'
  | .error _ => st

/-! ## CommandIdempotencyStore (ws.py lines 3551-3588) and the command branch
of `realtime_ws_endpoint` (ws.py lines 4893-4942). -/

/-- The fields of the cached `ack_message` (ws.py lines 4933-4940) that the
claims read (the other fields — sessionId, serverTime, type — play no role
in any decision). -/
structure AckMessage where
  commandId : String
  status : String
  command : String
deriving Repr, DecidableEq

/-- One cache slot: `self._entries[key] = (utcnow(), payload.copy())`. -/
structure IdemEntry where
  key : String
  created_at : ℤ
  payload : AckMessage
deriving Repr, DecidableEq

/-- `CommandIdempotencyStore` (ws.py lines 3551-3556); `entries` models the
Python dict in insertion order with unique keys; times are in whole seconds. -/
structure IdempotencyStore where
  ttl_seconds : ℤ
  max_entries : ℕ
  entries : List IdemEntry
deriving Repr, DecidableEq

/-- `ws_idempotency = CommandIdempotencyStore()` with the default
`ttl_seconds=900`, `max_entries=20_000` (ws.py lines 3552, 3592). -/
def emptyIdempotencyStore : IdempotencyStore := ⟨900, 20000, []⟩

/-- `_cleanup_locked` (ws.py lines 3558-3562): delete every entry with
`created_at < now - ttl_seconds`. -/
def idemCleanup (s : IdempotencyStore) (now : ℤ) : IdempotencyStore :=
  { s with entries :=
      s.entries.filter (fun e => ¬ (e.created_at < now - s.ttl_seconds)) }

/-- `_trim_locked` (ws.py lines 3564-3573): when over capacity, drop the
oldest-created entries (Python's `sorted` is stable, as is `mergeSort`). -/
def idemTrim (s : IdempotencyStore) : IdempotencyStore :=
  if s.entries.length ≤ s.max_entries then s
  else
    let ordered := s.entries.mergeSort (fun a b => a.created_at ≤ b.created_at)
    let keys_to_remove :=
      (ordered.take (s.entries.length - s.max_entries)).map IdemEntry.key
    { s with entries := s.entries.filter (fun e => ¬ e.key ∈ keys_to_remove) }

/-- `CommandIdempotencyStore.get` (ws.py lines 3575-3582): cleanup under the
lock, then dict lookup; returns the (possibly cleaned) store as well. -/
def idemGet (s : IdempotencyStore) (now : ℤ) (key : String) :
    Option AckMessage × IdempotencyStore :=
  let s' := idemCleanup s now
  ((s'.entries.find? (fun e => e.key = key)).map IdemEntry.payload, s')

/-- Python dict assignment `self._entries[key] = ...`: replace in place when
the key exists, append otherwise. -/
def dictSet (entries : List IdemEntry) (e : IdemEntry) : List IdemEntry :=
  if entries.any (fun x => x.key = e.key) then
    entries.map (fun x => if x.key = e.key then e else x)
  else entries ++ [e]

/-- `CommandIdempotencyStore.put` (ws.py lines 3584-3588): cleanup, store the
payload at `now`, trim. -/
def idemPut (s : IdempotencyStore) (now : ℤ) (key : String)
    (payload : AckMessage) : IdempotencyStore :=
  let s' := idemCleanup s now
  idemTrim { s' with entries := dictSet s'.entries ⟨key, now, payload⟩ }

/-- A client `command` frame (ws.py lines 4850-4895). -/
structure CommandFrame where
  user_id : String
  session_id : String
  command_id : String
  command : String
deriving Repr, DecidableEq

/-- `command_cache_key` (ws.py lines 4701-4702). -/
def command_cache_key (user_id session_id command_id : String) : String :=
  user_id ++ ":" ++ session_id ++ ":" ++ command_id

/-- What one pass through the command branch of `realtime_ws_endpoint`
produced, over an abstract per-session state type `σ`: the ack sent back,
whether the session lock was acquired and the handler plus `db.commit()`
ran, and the resulting persisted state and cache. -/
structure CommandFrameResult (σ : Type) where
  ack : AckMessage
  handler_ran : Bool
  lock_acquired : Bool
  committed : Bool
  state : σ
  store : IdempotencyStore
deriving Repr

/-- ws.py lines 4893-4942: the idempotency lookup runs first; on a hit the
endpoint sends `{**cached_ack, "status": "duplicate"}` and `continue`s —
the session lock, `apply_lesson_runtime_tick_for_session`,
`apply_realtime_command` and `db.commit()` are never reached.  On a miss the
lock is acquired, tick + handler + commit run (`handler` abstracts that
state mutation), and the `applied` ack is cached under the frame's key. -/
def processCommandFrame {sigma : Type} (store : IdempotencyStore) (now : ℤ)
    (state : sigma) (handler : sigma → sigma) (frame : CommandFrame) :
    CommandFrameResult sigma :=
  let key := command_cache_key frame.user_id frame.session_id frame.command_id
  let r := idemGet store now key
  match r.1 with
  | some cached =>
      { ack := { cached with status := "duplicate" }
        handler_ran := false
        lock_acquired := false
        committed := false
        state := state
        store := r.2 }
  | none =>
      let ack : AckMessage := ⟨frame.command_id, "applied", frame.command⟩
      { ack := ack
        handler_ran := true
        lock_acquired := true
        committed := true
        state := handler state
        store := idemPut r.2 now key ack }

/-! ## FireDynamicsEngine: fire and smoke area update (ws.py lines 2025-2205;
constants from physics_config.py: FIRE_MIN_AREA = 3.0,
BUILDING_AREA_FALLBACK_PER = 800.0, BUILDING_AREA_FALLBACK_GLOBAL = 2000.0,
SMOKE_MIN_AREA = 4.0). -/

/-- `current_area = max(3.0, as_float(fire.area_m2, 25.0))` (ws.py line 2026). -/
def fireCurrentArea (area_m2 : ℚ) : ℚ := max 3 area_m2

/-- `max_area_m2` derivation (ws.py lines 2028-2050): the stored
`extra["max_area_m2"]` (0 when absent), possibly tightened to the first
containing scene polygon's area (`polygon_bound`), clamped to `[4, 20000]`
when positive, else the heuristic fallback
`max(FIRE_MIN_AREA, min(BUILDING_AREA_FALLBACK_GLOBAL, current + BUILDING_AREA_FALLBACK_PER))`. -/
def fireMaxArea (extra_max : ℚ) (polygon_bound : Option ℚ) (current_area : ℚ) : ℚ :=
  let max1 :=
    match polygon_bound with
    | some poly => if 0 < extra_max then min extra_max poly else poly
    | none => extra_max
  if 0 < max1 then max 4 (min 20000 max1)
  else max 3 (min 2000 (current_area + 800))

/-- `next_area = max(0.0, current + growth - suppression)` clamped by
`max_area_m2` when positive, stored as `round(next_area, 2)`
(ws.py lines 2116-2119). -/
def fireNextAreaStored (current_area growth suppression max_area : ℚ) : ℚ :=
  let next := max 0 (current_area + growth - suppression)
  let clamped := if 0 < max_area then min next max_area else next
  round2 clamped

/-- One full area update of a fire object for one tick. -/
def fireTickArea (area_m2 growth suppression extra_max : ℚ)
    (polygon_bound : Option ℚ) : ℚ :=
  fireNextAreaStored (fireCurrentArea area_m2) growth suppression
    (fireMaxArea extra_max polygon_bound (fireCurrentArea area_m2))

/-- `fire.area_m2` after a sequence of ticks, each with its own growth,
suppression share, stored `max_area_m2` and polygon bound. -/
def foldFireTicks (area : ℚ) (ticks : List (ℚ × ℚ × ℚ × Option ℚ)) : ℚ :=
  ticks.foldl (fun a t => fireTickArea a t.1 t.2.1 t.2.2.1 t.2.2.2) area

/-- The smoke-zone bound (ws.py lines 2160-2164): the stored bound, defaulted
to `1.6 × post_fire_area_sum` when absent, clamped to `[8, 26000]` when
positive. -/
def smokeMaxArea (extra_max post_fire_area_sum : ℚ) : ℚ :=
  let m := if extra_max ≤ 0 ∧ 0 < post_fire_area_sum
    then post_fire_area_sum * (8/5) else extra_max
  if 0 < m then max 8 (min 26000 m) else m

/-- `next_area = max(SMOKE_MIN_AREA, current + growth - dissipation)` clamped
by the smoke bound when positive, stored rounded (ws.py lines 2189-2192). -/
def smokeNextAreaStored (current_area growth dissipation max_area : ℚ) : ℚ :=
  let next := max 4 (current_area + growth - dissipation)
  let clamped := if 0 < max_area then min next max_area else next
  round2 clamped

/-! ## Roles, the combat-area activation gate and `create_resource_deployment`
(enums.py, auth.py lines 155-161, ws.py lines 122-129, 726-739, 775-1015,
3923-4002). -/

/-- `UserRole` (enums.py). -/
inductive UserRole
  | ADMIN
  | COMBAT_AREA_1
  | COMBAT_AREA_2
  | DISPATCHER
  | HQ
  | RTP
  | TRAINING_LEAD
deriving Repr, DecidableEq

/-- `UserRole.value`. -/
def userRoleValue : UserRole → String
  | .ADMIN => "ADMIN"
  | .COMBAT_AREA_1 => "COMBAT_AREA_1"
  | .COMBAT_AREA_2 => "COMBAT_AREA_2"
  | .DISPATCHER => "DISPATCHER"
  | .HQ => "HQ"
  | .RTP => "RTP"
  | .TRAINING_LEAD => "TRAINING_LEAD"

/-- `ResourceKind` (enums.py lines 102-108): exactly six members.  ws.py
nevertheless evaluates `ResourceKind.HOSE_SPLITTER` at lines 893, 932 and
1431; a missing enum member raises `AttributeError` in Python, so each of
those expressions raises whenever it is reached. -/
inductive ResourceKind
  | VEHICLE
  | HOSE_LINE
  | NOZZLE
  | WATER_SOURCE
  | CREW
  | MARKER
deriving Repr, DecidableEq

/-- `DeploymentStatus` (enums.py). -/
inductive DeploymentStatus
  | PLANNED
  | EN_ROUTE
  | DEPLOYED
  | ACTIVE
  | COMPLETED
deriving Repr, DecidableEq

/-- How a ws.py handler can abort: an `HTTPException` it raises on purpose,
or an uncaught `AttributeError` from evaluating a missing enum member. -/
inductive PyError
  | http (e : WsError)
  | attributeError (attr : String)
deriving Repr, DecidableEq

/-- The exception raised by evaluating `ResourceKind.HOSE_SPLITTER`: the
member is absent from `ResourceKind` (enums.py lines 102-108), so Python
raises `AttributeError("HOSE_SPLITTER")` at each of ws.py lines 893, 932
and 1431. -/
def resourceKindHoseSplitterError : PyError := .attributeError "HOSE_SPLITTER"

/-- The error frame the websocket command loop sends (ws.py lines
4954-4985): an `HTTPException` becomes a `HTTP_ERROR` frame carrying its
status code and detail; every other exception falls to the generic handler,
which sends the fixed `INTERNAL_ERROR` frame with detail "Internal realtime
server error" and no status field. -/
structure ErrorFrame where
  code : String
  detail : String
  status : Option ℕ
deriving Repr, DecidableEq

/-- ws.py lines 4954-4985: the frame sent for each kind of exception. -/
def wsErrorFrame : PyError → ErrorFrame
  | .http e => ⟨"HTTP_ERROR", e.detail, some e.status_code⟩
  | .attributeError _ => ⟨"INTERNAL_ERROR", "Internal realtime server error", none⟩

/-- `db.commit()` runs only after the command handler returns (ws.py lines
4888-4931); an exception skips it and the session close rolls the
transaction back, so the persisted state is unchanged. -/
def commitOnSuccess {α : Type} (persisted : α) (result : Except PyError α) : α :=
  match result with
  | .ok a => a
  | .error _ => persisted

/-- `parse_enum(ResourceKind, value, "resource_kind")` (ws.py lines 379-390,
3931-3935): `ResourceKind(str(value))` succeeds exactly on the six member
values; anything else — including "HOSE_SPLITTER" — raises `ValueError`,
turned into HTTP 422 listing the allowed values. -/
def parse_resource_kind (value : String) : Except WsError ResourceKind :=
  if value = "VEHICLE" then .ok .VEHICLE
  else if value = "HOSE_LINE" then .ok .HOSE_LINE
  else if value = "NOZZLE" then .ok .NOZZLE
  else if value = "WATER_SOURCE" then .ok .WATER_SOURCE
  else if value = "CREW" then .ok .CREW
  else if value = "MARKER" then .ok .MARKER
  else .error ⟨422,
    "resource_kind must be one of: VEHICLE, HOSE_LINE, NOZZLE, WATER_SOURCE, CREW, MARKER"⟩

/-- `normalize_role_name` (auth.py lines 155-161): strip/uppercase, then the
legacy alias map `ROLE_ALIASES_TO_CANONICAL` (enums.py); canonical names map
to themselves.  `String.toUpper` only uppercases ASCII, so the Cyrillic
aliases are matched as they appear in the table. -/
def normalize_role_name (role_name : String) : String :=
  let n := pyUpper (pyStrip role_name)
  if n = "АДМИН" then "ADMIN"
  else if n = "БОЕВОЙ УЧАСТОК 1" ∨ n = "БУ1" ∨ n = "БУ 1" ∨ n = "STAFF" ∨
      n = "ПОЖАРНЫЙ" ∨ n = "СОТРУДНИК" ∨ n = "FIREFIGHTER" then "COMBAT_AREA_1"
  else if n = "БОЕВОЙ УЧАСТОК 2" ∨ n = "БУ2" ∨ n = "БУ 2" then "COMBAT_AREA_2"
  else if n = "ДИСПЕТЧЕР" then "DISPATCHER"
  else if n = "ШТАБ" ∨ n = "NSH" ∨ n = "НАЧАЛЬНИК ШТАБА" then "HQ"
  else if n = "РТП" then "RTP"
  else if n = "РУКОВОДИТЕЛЬ ЗАНЯТИЙ" then "TRAINING_LEAD"
  else n

/-- `normalize_resource_role_tag` (ws.py lines 775-789); `none` models a
non-string value (returns `""`). -/
def normalize_resource_role_tag (value : Option String) : String :=
  match value with
  | none => ""
  | some s =>
      let n := normalize_role_name s
      if n = "DISPATCHER" then "DISPATCHER"
      else if n = "BU1" ∨ n = "БУ1" ∨ n = "БУ - 1" ∨ n = "COMBAT_AREA_1" then
        "COMBAT_AREA_1"
      else if n = "BU2" ∨ n = "БУ2" ∨ n = "БУ - 2" ∨ n = "COMBAT_AREA_2" then
        "COMBAT_AREA_2"
      else if n = "RTP" then "RTP"
      else if n = "HQ" ∨ n = "ШТАБ" then "HQ"
      else n

/-- The fields of a `ResourceDeployment` row the gate reads. -/
structure DeploymentRecord where
  resource_kind : ResourceKind
  status : DeploymentStatus
  role : Option String
  initiated_from_role : Option String
  command_point : Option String
deriving Repr, DecidableEq

/-- `BU_COMMAND_POINT_BY_ROLE` (ws.py lines 122-125). -/
def BU_COMMAND_POINT_BY_ROLE : UserRole → Option String
  | .COMBAT_AREA_1 => some "BU1"
  | .COMBAT_AREA_2 => some "BU2"
  | _ => none

/-- `BU_LABEL_BY_ROLE` (ws.py lines 126-129). -/
def BU_LABEL_BY_ROLE : UserRole → Option String
  | .COMBAT_AREA_1 => some "БУ-1"
  | .COMBAT_AREA_2 => some "БУ-2"
  | _ => none

/-- `resource_data.get("role") or resource_data.get("initiated_from_role")`
(ws.py lines 988-990; Python `or` treats `None` and `""` as falsy). -/
def roleOrInitiated (d : DeploymentRecord) : Option String :=
  match d.role with
  | some s => if s = "" then d.initiated_from_role else some s
  | none => d.initiated_from_role

/-- `has_rtp_command_point_for_combat_area` (ws.py lines 959-995): some
non-completed MARKER deployment of the snapshot carries the RTP role tag and
the area's command point. -/
def has_rtp_command_point_for_combat_area
    (deployments : List DeploymentRecord) (bu_role : UserRole) : Bool :=
  match BU_COMMAND_POINT_BY_ROLE bu_role with
  | none => false
  | some target =>
      deployments.any (fun d =>
        d.resource_kind = ResourceKind.MARKER &&
        !(d.status = DeploymentStatus.COMPLETED) &&
        normalize_resource_role_tag (roleOrInitiated d) = "RTP" &&
        pyUpper (pyStrip (d.command_point.getD "")) = target)

/-- `resolve_combat_area_role_for_user` (ws.py lines 950-956) over the user's
canonical role set. -/
def resolve_combat_area_role_for_user (roles : List UserRole) : Option UserRole :=
  if UserRole.COMBAT_AREA_1 ∈ roles then some .COMBAT_AREA_1
  else if UserRole.COMBAT_AREA_2 ∈ roles then some .COMBAT_AREA_2
  else none

/-- Substring search over the underlying character list. -/
def hasSubstring : List Char → List Char → Bool
  | [], pat => pat.isEmpty
  | c :: cs, pat => pat.isPrefixOf (c :: cs) || hasSubstring cs pat

/-- Whether the string mentions РТП (the RTP role, in the Russian the error
messages use). -/
def mentionsRTP (s : String) : Bool := hasSubstring s.data "РТП".data

/-- `assert_combat_area_is_activated_by_rtp` (ws.py lines 998-1015). -/
def assert_combat_area_is_activated_by_rtp
    (deployments : List DeploymentRecord) (roles : List UserRole) :
    Except WsError Unit :=
  match resolve_combat_area_role_for_user roles with
  | none => .ok ()
  | some bu =>
      if has_rtp_command_point_for_combat_area deployments bu then .ok ()
      else
        .error ⟨409,
          (BU_LABEL_BY_ROLE bu).getD (userRoleValue bu) ++
            " ожидает постановки РТП. РТП должен разместить командную точку " ++
            (BU_COMMAND_POINT_BY_ROLE bu).getD (userRoleValue bu)⟩

/-- The payload slice of `create_resource_deployment` the modelled pipeline
reads (enum fields arrive already parsed by `parse_enum`; `geometry` is
validated separately and carries no workflow decision). -/
structure CreateDeploymentPayload where
  resource_kind : ResourceKind
  status : DeploymentStatus
  label : String
  vehicle_dictionary_id : Option ℕ
  rotation_deg : Option ℕ
  role : Option String
  initiated_from_role : Option String
  command_point : Option String
  plan_only : Bool
  dispatch_code : Option String
  dispatch_eta_sec : Option ℕ
  dispatch_eta_min : Option ℕ
deriving Repr, DecidableEq

/-- `is_dispatcher_vehicle_dispatch` (ws.py lines 792-808). -/
def is_dispatcher_vehicle_dispatch (roles : List UserRole)
    (kind : ResourceKind) (status : DeploymentStatus) (role_tag : String) :
    Bool :=
  kind = ResourceKind.VEHICLE && status = DeploymentStatus.EN_ROUTE &&
    (role_tag = "DISPATCHER" || UserRole.DISPATCHER ∈ roles)

/-- `DISPATCH_CODE_ALPHABET` (ws.py line 280). -/
def DISPATCH_CODE_ALPHABET : List Char :=
  "ABCDEFGHJKMNPQRSTUVWXYZ23456789".toList

/-- `parse_dispatch_code` (ws.py lines 753-772); `none` models a non-string
value. -/
def parse_dispatch_code (value : Option String) : Except WsError String :=
  match value with
  | none => .error ⟨422, "resource_data.dispatch_code must be string"⟩
  | some s =>
      let code := pyUpper (pyStrip s)
      if code.length ≠ 7 then
        .error ⟨422, "resource_data.dispatch_code must be exactly 7 chars"⟩
      else if code.toList.any (fun c => ¬ c ∈ DISPATCH_CODE_ALPHABET) then
        .error ⟨422,
          "resource_data.dispatch_code must use letters/digits from dispatcher alphabet"⟩
      else .ok code

/-- `validate_dispatcher_vehicle_call_resource_data` (ws.py lines 811-843).
The optional `dispatch_eta_at` ISO-datetime re-parse (lines 845-858) only
re-validates a diagnostic string and is not modelled. -/
def validate_dispatcher_vehicle_call (p : CreateDeploymentPayload) :
    Except WsError Unit :=
  match parse_dispatch_code p.dispatch_code with
  | .error e => .error e
  | .ok _ =>
      let eta : Option ℕ :=
        match p.dispatch_eta_sec with
        | some e => some e
        | none =>
            match p.dispatch_eta_min with
            | some m => some (m * 60)
            | none => none
      match eta with
      | none => .error ⟨422,
          "resource_data.dispatch_eta_sec is required for dispatcher vehicle dispatch"⟩
      | some e =>
          if e < 30 ∨ 120 < e then
            .error ⟨422, "resource_data.dispatch_eta_sec must be in range [30..120]"⟩
          else .ok ()

/-- `assert_deployment_workflow_allowed_for_role` (ws.py lines 861-947).
The HQ branch builds the membership set
`{MARKER, HOSE_LINE, HOSE_SPLITTER, NOZZLE, WATER_SOURCE}` (lines 890-896)
and the combat-area branch the set
`{VEHICLE, HOSE_LINE, HOSE_SPLITTER, NOZZLE, MARKER, WATER_SOURCE}` (lines
929-936); constructing either set evaluates the missing
`ResourceKind.HOSE_SPLITTER`, so those branches raise `AttributeError`
before any membership test, regardless of the payload.  The ADMIN,
TRAINING_LEAD, DISPATCHER and RTP branches, and the role-less fall-through,
never reach a set containing the missing member. -/
def assert_deployment_workflow_allowed_for_role (roles : List UserRole)
    (kind : ResourceKind) (status : DeploymentStatus) (role_tag : String)
    (plan_only : Bool) (command_point : Option String) : Except PyError Unit :=
  if UserRole.ADMIN ∈ roles ∨ UserRole.TRAINING_LEAD ∈ roles then .ok ()
  else if UserRole.DISPATCHER ∈ roles then
    if is_dispatcher_vehicle_dispatch roles kind status role_tag then .ok ()
    else .error (.http ⟨403, "Dispatcher can dispatch only EN_ROUTE vehicle records"⟩)
  else if UserRole.HQ ∈ roles then
    if ¬ plan_only then .error (.http ⟨403, "HQ can place only planning resources"⟩)
    else .error resourceKindHoseSplitterError
  else if UserRole.RTP ∈ roles then
    if ¬ kind = ResourceKind.MARKER then
      .error (.http ⟨403, "RTP can place only command markers"⟩)
    else
      let cp := pyUpper (pyStrip (command_point.getD ""))
      if ¬ (cp = "HQ" ∨ cp = "BU1" ∨ cp = "BU2") then
        .error (.http ⟨403, "RTP marker must define command_point: HQ, BU1 or BU2"⟩)
      else .ok ()
  else
    match resolve_combat_area_role_for_user roles with
    | some _ => .error resourceKindHoseSplitterError
    | none => .ok ()

/-- The row `db.add` inserts (ws.py lines 3990-4002), restricted to the
fields the gate reads. -/
def newDeploymentRecord (p : CreateDeploymentPayload) : DeploymentRecord :=
  ⟨p.resource_kind, p.status, p.role, p.initiated_from_role, p.command_point⟩

/-- `apply_create_resource_deployment_command` (ws.py lines 3923-4002):
payload validation, the per-role workflow assertion, the combat-area
activation gate, the dispatcher-dispatch validation, then `db.add`.  An
exception raised anywhere aborts the transaction, so the persisted
deployment list is unchanged; the workflow assertion can also raise
`AttributeError` (see `assert_deployment_workflow_allowed_for_role`), which
propagates before the activation gate at line 3980 is reached. -/
def apply_create_resource_deployment (deployments : List DeploymentRecord)
    (roles : List UserRole) (p : CreateDeploymentPayload) :
    Except PyError (List DeploymentRecord) :=
  if pyStrip p.label = "" then .error (.http ⟨422, "label is required"⟩)
  else if 255 < p.label.length then
    .error (.http ⟨422, "label must be <= 255 chars"⟩)
  else if p.vehicle_dictionary_id = some 0 then
    .error (.http ⟨422, "vehicle_dictionary_id must be >= 1"⟩)
  else if (match p.rotation_deg with
      | some r => decide (359 < r)
      | none => false) = true then
    .error (.http ⟨422, "rotation_deg must be integer in range [0..359]"⟩)
  else
    match assert_deployment_workflow_allowed_for_role roles p.resource_kind
        p.status (normalize_resource_role_tag p.role) p.plan_only
        p.command_point with
    | .error e => .error e
    | .ok _ =>
        match assert_combat_area_is_activated_by_rtp deployments roles with
        | .error e => .error (.http e)
        | .ok _ =>
            if is_dispatcher_vehicle_dispatch roles p.resource_kind p.status
                (normalize_resource_role_tag p.role) then
              if p.vehicle_dictionary_id = none then
                .error (.http ⟨422,
                  "vehicle_dictionary_id is required for dispatcher vehicle dispatch"⟩)
              else
                match validate_dispatcher_vehicle_call p with
                | .error e => .error (.http e)
                | .ok _ => .ok (deployments ++ [newDeploymentRecord p])
            else .ok (deployments ++ [newDeploymentRecord p])

/-! ## apply_fire_dynamics_tick: the deployment prologue (ws.py lines
1382-1452) and the resulting reachability of the resource resolver. -/

/-- The splitter-entry loop (ws.py lines 1430-1452).  Its guard is
`if deployment.resource_kind != ResourceKind.HOSE_SPLITTER: continue`;
evaluating the right-hand side raises `AttributeError` (the member is
missing from enums.py), so the first iteration over a non-empty deployment
list aborts the tick, while over an empty list the body never runs. -/
def buildSplitterEntries : List DeploymentRecord → Except PyError Unit
  | [] => .ok ()
  | _ :: _ => .error resourceKindHoseSplitterError

/-- The outcome of `apply_fire_dynamics_tick` (ws.py lines 1382-2275) as far
as the resource runtime is concerned: an early return when the snapshot has
no fire objects (lines 1399-1400), an uncaught exception, or a completed
tick carrying the deployments its hose-line (line 1454), nozzle (line 1585)
and vehicle (line 1415) entry loops iterate past their kind guards. -/
inductive FireTickOutcome
  | no_fire_objects
  | crashed (e : PyError)
  | completed (hose_lines nozzles vehicles : List DeploymentRecord)
deriving Repr, DecidableEq

/-- The deployment prologue of `apply_fire_dynamics_tick`: with no fire
objects the function returns before reading deployments; otherwise the
splitter-entry loop (lines 1430-1452) runs before the hose-line (1454),
nozzle (1585) and vehicle (1415 feeding 1534-1581) entries are turned into
`hose_runtime`, `nozzle_runtime` and `vehicle_runtime`, so its
`AttributeError` aborts the tick whenever any deployment exists and the
whole resolver (lines 1454-1893) runs only over an empty deployment
list. -/
def apply_fire_dynamics_tick_outcome (fire_object_ids : List String)
    (deployments : List DeploymentRecord) : FireTickOutcome :=
  if fire_object_ids.isEmpty then .no_fire_objects
  else
    match buildSplitterEntries deployments with
    | .error e => .crashed e
    | .ok _ =>
        .completed
          (deployments.filter (fun d => d.resource_kind = ResourceKind.HOSE_LINE))
          (deployments.filter (fun d => d.resource_kind = ResourceKind.NOZZLE))
          (deployments.filter (fun d => d.resource_kind = ResourceKind.VEHICLE))

/-! ## The command table and the disabled `set_radio_interference` command
(ws.py lines 56-116, 726-739, 3090-3102, 4630-4691, 4888-4923). -/

/-- `WS_COMMAND_PERMISSIONS` (ws.py lines 56-74). -/
def WS_COMMAND_PERMISSIONS (command : String) : Option String :=
  if command = "update_weather" then some "state:write"
  else if command = "create_fire_object" then some "state:write"
  else if command = "create_resource_deployment" then some "state:write"
  else if command = "update_snapshot" then some "state:write"
  else if command = "push_radio_message" then some "state:write"
  else if command = "set_radio_interference" then some "admin:manage"
  else if command = "set_scene_address" then some "scene:write"
  else if command = "upsert_scene_floor" then some "scene:write"
  else if command = "set_active_scene_floor" then some "scene:write"
  else if command = "upsert_scene_object" then some "scene:write"
  else if command = "remove_scene_object" then some "scene:write"
  else if command = "sync_scene_to_fire_objects" then some "scene:write"
  else if command = "save_scene_checkpoint" then some "scene:write"
  else if command = "start_lesson" then some "scene:write"
  else if command = "pause_lesson" then some "scene:write"
  else if command = "resume_lesson" then some "scene:write"
  else if command = "finish_lesson" then some "scene:write"
  else none

/-- `WS_COMMAND_ALLOWED_ROLES` (ws.py lines 76-116). -/
def WS_COMMAND_ALLOWED_ROLES (command : String) : Option (List UserRole) :=
  if command = "update_weather" then some [.ADMIN, .TRAINING_LEAD]
  else if command = "create_fire_object" then some [.ADMIN, .TRAINING_LEAD]
  else if command = "create_resource_deployment" then
    some [.ADMIN, .TRAINING_LEAD, .DISPATCHER, .RTP, .HQ, .COMBAT_AREA_1,
      .COMBAT_AREA_2]
  else if command = "update_snapshot" then
    some [.ADMIN, .TRAINING_LEAD, .DISPATCHER]
  else if command = "push_radio_message" then
    some [.ADMIN, .TRAINING_LEAD, .DISPATCHER, .RTP, .HQ, .COMBAT_AREA_1,
      .COMBAT_AREA_2]
  else if command = "set_radio_interference" then some [.ADMIN]
  else if command = "set_scene_address" then some [.ADMIN, .TRAINING_LEAD]
  else if command = "upsert_scene_floor" then some [.ADMIN, .TRAINING_LEAD]
  else if command = "set_active_scene_floor" then some [.ADMIN, .TRAINING_LEAD]
  else if command = "upsert_scene_object" then some [.ADMIN, .TRAINING_LEAD]
  else if command = "remove_scene_object" then some [.ADMIN, .TRAINING_LEAD]
  else if command = "sync_scene_to_fire_objects" then
    some [.ADMIN, .TRAINING_LEAD]
  else if command = "save_scene_checkpoint" then some [.ADMIN, .TRAINING_LEAD]
  else if command = "start_lesson" then some [.ADMIN, .TRAINING_LEAD]
  else if command = "pause_lesson" then some [.ADMIN, .TRAINING_LEAD]
  else if command = "resume_lesson" then some [.ADMIN, .TRAINING_LEAD]
  else if command = "finish_lesson" then some [.ADMIN, .TRAINING_LEAD]
  else none

/-- `assert_role_allowed_for_command` (ws.py lines 726-739). -/
def assert_role_allowed_for_command (roles : List UserRole)
    (command : String) : Except WsError Unit :=
  match WS_COMMAND_ALLOWED_ROLES command with
  | none => .ok ()
  | some allowed =>
      if roles.any (fun r => r ∈ allowed) then .ok ()
      else .error ⟨403, "Role is not allowed to run command: " ++ command⟩

/-- `apply_set_radio_interference_command` (ws.py lines 3090-3102): it
clears `radio_runtime["interference"]` on the transaction-local snapshot
clone, then unconditionally raises HTTP 410.  The returned pair is (the
transaction-local interference value, the raise). -/
def apply_set_radio_interference_command (_persisted_interference : Option String) :
    (Option String) × Except WsError Unit :=
  (none, .error ⟨410, "Radio interference is disabled"⟩)

/-- The dispatch of a `set_radio_interference` frame (ws.py lines 4637,
4652-4653 inside `apply_realtime_command`): role allow-list first
(`set_radio_interference` is not in `SCENE_EDIT_LOCKED_COMMANDS`, so the
scene-lock assertion returns immediately), then the handler; the handler's
raise aborts the transaction. -/
def applyRealtimeSetRadioInterference (roles : List UserRole)
    (persisted_interference : Option String) : Except WsError (Option String) :=
  match assert_role_allowed_for_command roles "set_radio_interference" with
  | .error e => .error e
  | .ok _ =>
      match (apply_set_radio_interference_command persisted_interference).2 with
      | .error e => .error e
      | .ok _ => .ok (apply_set_radio_interference_command persisted_interference).1

/-- What the endpoint persists: `db.commit()` runs only when no exception
was raised (ws.py lines 4903-4923); on an error the session is closed
without commit and the persisted value is unchanged. -/
def commitSetRadioInterference (roles : List UserRole)
    (persisted_interference : Option String) : Option String :=
  match applyRealtimeSetRadioInterference roles persisted_interference with
  | .ok s => s
  | .error _ => persisted_interference

/-! ## Theorems -/

theorem roundHalfEven_intCast (n : ℤ) : roundHalfEven (n : ℚ) = n := by
  simp [roundHalfEven]

theorem floor_le_roundHalfEven (q : ℚ) : ⌊q⌋ ≤ roundHalfEven q := by
  unfold roundHalfEven
  split_ifs <;> omega

theorem roundHalfEven_le_floor_add_one (q : ℚ) : roundHalfEven q ≤ ⌊q⌋ + 1 := by
  unfold roundHalfEven
  split_ifs <;> omega

theorem roundHalfEven_mono {p q : ℚ} (h : p ≤ q) :
    roundHalfEven p ≤ roundHalfEven q := by
  have hfl : ⌊p⌋ ≤ ⌊q⌋ := Int.floor_le_floor h
  rcases eq_or_lt_of_le hfl with hf | hf
  · have hfq : ((⌊p⌋ : ℚ)) = ((⌊q⌋ : ℚ)) := by exact_mod_cast hf
    have hr : p - ((⌊q⌋ : ℚ)) ≤ q - ((⌊q⌋ : ℚ)) := by linarith
    unfold roundHalfEven
    rw [hf]
    split_ifs <;> first | omega | linarith
  · calc roundHalfEven p ≤ ⌊p⌋ + 1 := roundHalfEven_le_floor_add_one p
      _ ≤ ⌊q⌋ := by omega
      _ ≤ roundHalfEven q := floor_le_roundHalfEven q

theorem round2_mono {p q : ℚ} (h : p ≤ q) : round2 p ≤ round2 q := by
  have h1 : p * 100 ≤ q * 100 := by linarith
  have h2 : ((roundHalfEven (p * 100) : ℚ)) ≤ ((roundHalfEven (q * 100) : ℚ)) := by
    exact_mod_cast roundHalfEven_mono h1
  simp only [round2]
  linarith

theorem round2_idem (q : ℚ) : round2 (round2 q) = round2 q := by
  simp only [round2]
  rw [div_mul_cancel₀ _ (by norm_num : (100 : ℚ) ≠ 0), roundHalfEven_intCast]

theorem round2_nonneg {q : ℚ} (h : 0 ≤ q) : 0 ≤ round2 q := by
  have h1 : ((0 : ℤ) : ℚ) ≤ q * 100 := by push_cast; linarith
  have h2 : (0 : ℤ) ≤ roundHalfEven (q * 100) := by
    have := roundHalfEven_mono h1
    rwa [roundHalfEven_intCast] at this
  have h3 : ((0 : ℤ) : ℚ) ≤ ((roundHalfEven (q * 100) : ℚ)) := by exact_mod_cast h2
  simp only [round2]
  push_cast at h3
  linarith

/-- If `q` is already a multiple of 1/100 (e.g. an integer capacity, or a
value previously produced by `round2`), `round2` leaves it unchanged. -/
theorem round2_eq_self_of_round2_image (q : ℚ) : round2 (round2 q) = round2 q :=
  round2_idem q

theorem round2_le_of_le {p q : ℚ} (h : p ≤ q) (hq : round2 q = q) :
    round2 p ≤ q := hq ▸ round2_mono h

theorem round2_intCast (n : ℤ) : round2 (n : ℚ) = n := by
  simp only [round2]
  have : ((n : ℚ)) * 100 = ((n * 100 : ℤ) : ℚ) := by push_cast; ring
  rw [this, roundHalfEven_intCast]
  push_cast
  ring

theorem roundHalfEven_eq_floor_of_lt {q : ℚ} (h : q - ⌊q⌋ < 1/2) :
    roundHalfEven q = ⌊q⌋ := by
  unfold roundHalfEven
  rw [if_pos h]

theorem clampTimeMultiplier_one_tenth : clampTimeMultiplier (1/10) = 1/10 := by
  unfold clampTimeMultiplier
  rw [min_eq_right (by norm_num), max_self]

theorem clampTimeMultiplier_two : clampTimeMultiplier 2 = 2 := by
  unfold clampTimeMultiplier
  rw [min_eq_right (by norm_num), max_eq_right (by norm_num)]

theorem roundHalfEven_one_tenth : roundHalfEven (1/10) = 0 := by
  have h1 : ⌊(1/10 : ℚ)⌋ = 0 := by norm_num
  rw [roundHalfEven_eq_floor_of_lt (by rw [h1]; norm_num), h1]

theorem lessonTickDelta_one_one_tenth : lessonTickDelta 1 (1/10) = some ⟨1, 0, 1⟩ := by
  unfold lessonTickDelta
  rw [if_neg (by norm_num)]
  simp only [SIMULATION_MAX_STEP_REAL_SEC, clampTimeMultiplier_one_tenth,
    min_eq_left (by norm_num : (1 : ℤ) ≤ 4)]
  norm_num [roundHalfEven_one_tenth]

theorem lessonTickDelta_one_two : lessonTickDelta 1 2 = some ⟨1, 0, 2⟩ := by
  unfold lessonTickDelta
  rw [if_neg (by norm_num)]
  simp only [SIMULATION_MAX_STEP_REAL_SEC, clampTimeMultiplier_two,
    min_eq_left (by norm_num : (1 : ℤ) ≤ 4)]
  have h2 : ((1 : ℤ) : ℚ) * 2 = ((2 : ℤ) : ℚ) := by norm_num
  rw [h2, roundHalfEven_intCast]
  norm_num

/-- C3 counterexample: with a 1-second wall-clock delta and
`time_multiplier = 0.1`, the code adds `max(1, round(0.1)) = 1` game second,
but `round(delta_real_sec * time_multiplier) = round(0.1) = 0`, so the
claimed equality `delta_game_sec = round(delta_real_sec * time_multiplier)`
fails. -/
theorem lessonTickDelta_not_plain_round :
    lessonTickDelta 1 (1/10) = some ⟨1, 0, 1⟩ ∧
    roundHalfEven (((min (1 : ℤ) 4 : ℤ) : ℚ) * clampTimeMultiplier (1/10)) = 0 := by
  refine ⟨lessonTickDelta_one_one_tenth, ?_⟩
  rw [min_eq_left (by norm_num : (1 : ℤ) ≤ 4), clampTimeMultiplier_one_tenth]
  simpa using roundHalfEven_one_tenth

/-- C3 (amended): on every runtime tick with positive raw delta, the real
delta is clamped to `max_step_real_sec = 4` with the clamped remainder
recorded as `dropped_ticks_last`, the multiplier is clamped to `[0.1, 30]`,
and the game delta added to `elapsed_game_sec` is
`max(1, round(delta_real_sec * time_multiplier))` (not the bare round);
with `time_multiplier = 2`, three idle 1-second ticks add 6 game seconds. -/
theorem lessonTickDelta_spec :
    (∀ (raw : ℤ) (m : ℚ), 0 < raw →
      lessonTickDelta raw m = some ⟨min raw 4, raw - min raw 4,
        max 1 (roundHalfEven (((min raw 4 : ℤ) : ℚ) * clampTimeMultiplier m))⟩ ∧
      1/10 ≤ clampTimeMultiplier m ∧ clampTimeMultiplier m ≤ 30) ∧
    (∀ e : ℤ,
      applyTickElapsed (applyTickElapsed (applyTickElapsed e 1 2) 1 2) 1 2 = e + 6) := by
  constructor
  · intro raw m h
    refine ⟨?_, le_max_left _ _, max_le (by norm_num) (min_le_left 30 m)⟩
    have hmin : min raw 4 ≤ raw := min_le_left _ _
    have hdrop : max 0 (raw - min raw 4) = raw - min raw 4 :=
      max_eq_right (by omega)
    simp only [lessonTickDelta, SIMULATION_MAX_STEP_REAL_SEC,
      if_neg (show ¬ raw ≤ 0 by omega)]
    rw [hdrop]
  · intro e
    simp only [applyTickElapsed, lessonTickDelta_one_two]
    omega

/-- C3 witness: the amended statement evaluated at `raw = 3`,
`time_multiplier = 5/2`. -/
theorem lessonTickDelta_spec_witness :
    lessonTickDelta 3 (5/2) = some ⟨min 3 4, 3 - min 3 4,
      max 1 (roundHalfEven (((min (3 : ℤ) 4 : ℤ) : ℚ) * clampTimeMultiplier (5/2)))⟩ ∧
    1/10 ≤ clampTimeMultiplier (5/2) ∧ clampTimeMultiplier (5/2) ≤ 30 :=
  lessonTickDelta_spec.1 3 (5/2) (by decide)

theorem lessonRuntimeTickStatus_cases (st : LessonSessionState) (e : ℤ)
    (tl : Option ℤ) :
    lessonRuntimeTickStatus st e tl = st ∨
    (st.status = .IN_PROGRESS ∧ lessonRuntimeTickStatus st e tl =
      ⟨.COMPLETED, "COMPLETED", lesson_legacy_status_from_lifecycle "COMPLETED"⟩) ∨
    (st.status = .IN_PROGRESS ∧ lessonRuntimeTickStatus st e tl =
      ⟨.IN_PROGRESS, "RUNNING", lesson_legacy_status_from_lifecycle "RUNNING"⟩) := by
  unfold lessonRuntimeTickStatus
  by_cases h1 : st.status ≠ .IN_PROGRESS
  · rw [if_pos h1]
    exact Or.inl rfl
  · rw [if_neg h1]
    have hs : st.status = .IN_PROGRESS := not_not.mp h1
    by_cases h2 : lessonLifecycleOf st ≠ "RUNNING"
    · rw [if_pos h2]
      exact Or.inl rfl
    · rw [if_neg h2]
      rcases tl with _ | l
      · exact Or.inr (Or.inr ⟨hs, rfl⟩)
      · dsimp only
        by_cases h3 : 0 < l ∧ l ≤ e
        · rw [if_pos h3]
          exact Or.inr (Or.inl ⟨hs, rfl⟩)
        · rw [if_neg h3]
          exact Or.inr (Or.inr ⟨hs, rfl⟩)

/-- C2: every lesson command and the automatic timeout move the session only
along the legal edges DRAFT→RUNNING, RUNNING→PAUSED, PAUSED→RUNNING,
RUNNING|PAUSED→COMPLETED; in particular `pause_lesson` on a session whose
status is not IN_PROGRESS raises a 409 conflict and the persisted session
and `training_lesson` state are unchanged. -/
theorem lesson_transitions_only_legal_edges (st : LessonSessionState) :
    (∀ st', apply_start_lesson_command st = .ok st' →
      legalLessonEdge (statusLifecycle st.status) (statusLifecycle st'.status) = true) ∧
    (∀ st', apply_pause_lesson_command st = .ok st' →
      legalLessonEdge (statusLifecycle st.status) (statusLifecycle st'.status) = true) ∧
    (∀ st', apply_resume_lesson_command st = .ok st' →
      legalLessonEdge (statusLifecycle st.status) (statusLifecycle st'.status) = true) ∧
    (∀ st', apply_finish_lesson_command st = .ok st' →
      legalLessonEdge (statusLifecycle st.status) (statusLifecycle st'.status) = true) ∧
    (∀ (elapsed : ℤ) (tl : Option ℤ),
      (lessonRuntimeTickStatus st elapsed tl).status ≠ st.status →
      legalLessonEdge (statusLifecycle st.status)
        (statusLifecycle (lessonRuntimeTickStatus st elapsed tl).status) = true) ∧
    (st.status ≠ .IN_PROGRESS →
      apply_pause_lesson_command st =
        .error ⟨409, "Only IN_PROGRESS lesson can be paused"⟩ ∧
      commitLessonCommand apply_pause_lesson_command st = st) := by
  refine ⟨?_, ?_, ?_, ?_, ?_, ?_⟩
  · intro st' h
    obtain ⟨status, lc, leg⟩ := st
    cases status with
    | CREATED =>
        unfold apply_start_lesson_command at h
        rw [if_neg (by simp), if_neg (by simp), if_neg (by simp)] at h
        injection h with h'
        subst h'
        rfl
    | IN_PROGRESS => exact Except.noConfusion h
    | PAUSED => exact Except.noConfusion h
    | COMPLETED => exact Except.noConfusion h
  · intro st' h
    obtain ⟨status, lc, leg⟩ := st
    cases status with
    | IN_PROGRESS =>
        unfold apply_pause_lesson_command at h
        rw [if_neg (by simp)] at h
        split_ifs at h
        injection h with h'
        subst h'
        rfl
    | CREATED => exact Except.noConfusion h
    | PAUSED => exact Except.noConfusion h
    | COMPLETED => exact Except.noConfusion h
  · intro st' h
    obtain ⟨status, lc, leg⟩ := st
    cases status with
    | PAUSED =>
        unfold apply_resume_lesson_command at h
        rw [if_neg (by simp)] at h
        split_ifs at h
        injection h with h'
        subst h'
        rfl
    | CREATED => exact Except.noConfusion h
    | IN_PROGRESS => exact Except.noConfusion h
    | COMPLETED => exact Except.noConfusion h
  · intro st' h
    obtain ⟨status, lc, leg⟩ := st
    cases status with
    | IN_PROGRESS =>
        unfold apply_finish_lesson_command at h
        rw [if_neg (by simp)] at h
        injection h with h'
        subst h'
        rfl
    | PAUSED =>
        unfold apply_finish_lesson_command at h
        rw [if_neg (by simp)] at h
        injection h with h'
        subst h'
        rfl
    | CREATED => exact Except.noConfusion h
    | COMPLETED => exact Except.noConfusion h
  · intro elapsed tl h
    rcases lessonRuntimeTickStatus_cases st elapsed tl with hc | ⟨hs, hc⟩ | ⟨hs, hc⟩
    · rw [hc] at h
      exact absurd rfl h
    · rw [hc, hs]
      rfl
    · rw [hc] at h
      rw [hs] at h
      exact absurd rfl h
  · intro h
    constructor
    · unfold apply_pause_lesson_command
      rw [if_pos h]
    · unfold commitLessonCommand apply_pause_lesson_command
      rw [if_pos h]

/-- C2 witness: `pause_lesson` on a freshly CREATED (DRAFT) session. -/
theorem lesson_transitions_only_legal_edges_witness :
    apply_pause_lesson_command ⟨.CREATED, "DRAFT", "CREATED"⟩ =
      .error ⟨409, "Only IN_PROGRESS lesson can be paused"⟩ ∧
    commitLessonCommand apply_pause_lesson_command ⟨.CREATED, "DRAFT", "CREATED"⟩ =
      ⟨.CREATED, "DRAFT", "CREATED"⟩ :=
  (lesson_transitions_only_legal_edges ⟨.CREATED, "DRAFT", "CREATED"⟩).2.2.2.2.2
    (by decide)

/-- C1: while an ack for `(user, session, commandId)` is cached (entries
younger than the 900 s TTL), a second identical command frame returns the
cached ack with `status="duplicate"` and the session lock, the handler and
the repository commit are never reached; the first conjunct is the general
cache-hit short-circuit, the second replays a frame against a fresh store
within the TTL and shows exactly one handler run. -/
theorem command_idempotency_at_most_once :
    (∀ (sigma : Type) (store : IdempotencyStore) (now : ℤ) (state : sigma)
        (handler : sigma → sigma) (frame : CommandFrame) (cached : AckMessage),
      (idemGet store now
          (command_cache_key frame.user_id frame.session_id frame.command_id)).1 =
        some cached →
      processCommandFrame store now state handler frame =
        ⟨{ cached with status := "duplicate" }, false, false, false, state,
          (idemGet store now
            (command_cache_key frame.user_id frame.session_id frame.command_id)).2⟩) ∧
    (∀ (sigma : Type) (now now' : ℤ) (state : sigma) (handler : sigma → sigma)
        (frame : CommandFrame),
      0 ≤ now' - now → now' - now ≤ 900 →
      (processCommandFrame emptyIdempotencyStore now state handler frame).handler_ran
        = true ∧
      (processCommandFrame emptyIdempotencyStore now state handler frame).state
        = handler state ∧
      processCommandFrame
          (processCommandFrame emptyIdempotencyStore now state handler frame).store
          now'
          (processCommandFrame emptyIdempotencyStore now state handler frame).state
          handler frame =
        ⟨⟨frame.command_id, "duplicate", frame.command⟩, false, false, false,
          handler state,
          (processCommandFrame emptyIdempotencyStore now state handler frame).store⟩) := by
  constructor
  · intro sigma store now state handler frame cached h
    simp only [processCommandFrame]
    rw [h]
  · intro sigma now now' state handler frame h0 h900
    have hfirst :
        processCommandFrame emptyIdempotencyStore now state handler frame =
        ⟨⟨frame.command_id, "applied", frame.command⟩, true, true, true,
          handler state,
          ⟨900, 20000,
            [⟨command_cache_key frame.user_id frame.session_id frame.command_id,
              now, ⟨frame.command_id, "applied", frame.command⟩⟩]⟩⟩ := by
      simp [processCommandFrame, idemGet, idemCleanup, idemPut, idemTrim,
        dictSet, emptyIdempotencyStore]
    have hkeep : ¬ (now < now' - 900) := by omega
    refine ⟨by rw [hfirst], by rw [hfirst], ?_⟩
    rw [hfirst]
    simp only [processCommandFrame, idemGet, idemCleanup]
    simp [List.filter, List.find?, hkeep]

/-- C1 witness: a concrete frame applied at `now = 0` and replayed at
`now' = 10`. -/
theorem command_idempotency_at_most_once_witness :
    (processCommandFrame emptyIdempotencyStore 0 (0 : ℕ) Nat.succ
        ⟨"u", "s", "c1", "create_fire_object"⟩).handler_ran = true ∧
    (processCommandFrame emptyIdempotencyStore 0 (0 : ℕ) Nat.succ
        ⟨"u", "s", "c1", "create_fire_object"⟩).state = Nat.succ 0 ∧
    processCommandFrame
        (processCommandFrame emptyIdempotencyStore 0 (0 : ℕ) Nat.succ
          ⟨"u", "s", "c1", "create_fire_object"⟩).store
        10
        (processCommandFrame emptyIdempotencyStore 0 (0 : ℕ) Nat.succ
          ⟨"u", "s", "c1", "create_fire_object"⟩).state
        Nat.succ ⟨"u", "s", "c1", "create_fire_object"⟩ =
      ⟨⟨"c1", "duplicate", "create_fire_object"⟩, false, false, false,
        Nat.succ 0,
        (processCommandFrame emptyIdempotencyStore 0 (0 : ℕ) Nat.succ
          ⟨"u", "s", "c1", "create_fire_object"⟩).store⟩ :=
  command_idempotency_at_most_once.2 ℕ 0 10 0 Nat.succ
    ⟨"u", "s", "c1", "create_fire_object"⟩ (by norm_num) (by norm_num)

theorem fireMaxArea_pos (e : ℚ) (pb : Option ℚ) (c : ℚ) :
    0 < fireMaxArea e pb c := by
  rcases pb with _ | poly <;>
    · unfold fireMaxArea
      dsimp only
      split_ifs <;>
        exact lt_of_lt_of_le (by norm_num) (le_max_left _ _)

theorem fireMaxArea_le (e : ℚ) (pb : Option ℚ) (c : ℚ) :
    fireMaxArea e pb c ≤ 20000 := by
  rcases pb with _ | poly <;>
    · unfold fireMaxArea
      dsimp only
      split_ifs <;>
        first
          | exact max_le (by norm_num) (min_le_left _ _)
          | exact max_le (by norm_num) (le_trans (min_le_left _ _) (by norm_num))

theorem fireNextAreaStored_nonneg (c g s m : ℚ) (hm : 0 < m) :
    0 ≤ fireNextAreaStored c g s m := by
  simp only [fireNextAreaStored, if_pos hm]
  exact round2_nonneg (le_min (le_max_left _ _) (le_of_lt hm))

theorem fireNextAreaStored_le (c g s m : ℚ) (hm : 0 < m) :
    fireNextAreaStored c g s m ≤ round2 m := by
  simp only [fireNextAreaStored, if_pos hm]
  exact round2_mono (min_le_right _ _)

theorem round2_le_20000_of_le {m : ℚ} (h : m ≤ 20000) : round2 m ≤ 20000 := by
  have h1 : round2 m ≤ round2 ((20000 : ℤ) : ℚ) := round2_mono (by exact_mod_cast h)
  rwa [round2_intCast] at h1

theorem fireTickArea_bounds (a g s e : ℚ) (pb : Option ℚ) :
    0 ≤ fireTickArea a g s e pb ∧ fireTickArea a g s e pb ≤ 20000 := by
  unfold fireTickArea
  constructor
  · exact fireNextAreaStored_nonneg _ _ _ _ (fireMaxArea_pos _ _ _)
  · exact le_trans (fireNextAreaStored_le _ _ _ _ (fireMaxArea_pos _ _ _))
      (round2_le_20000_of_le (fireMaxArea_le _ _ _))

theorem foldFireTicks_bounds_aux (ts : List (ℚ × ℚ × ℚ × Option ℚ)) :
    ∀ a : ℚ, 0 ≤ a → a ≤ 20000 →
      0 ≤ foldFireTicks a ts ∧ foldFireTicks a ts ≤ 20000 := by
  induction ts with
  | nil => intro a h0 h1; exact ⟨h0, h1⟩
  | cons t ts ih =>
      intro a _ _
      have hstep := fireTickArea_bounds a t.1 t.2.1 t.2.2.1 t.2.2.2
      exact ih _ hstep.1 hstep.2

/-- C4: for every fire object and every number of ticks, the stored
`area_m2` stays within `[0, max_area_m2]`: each tick clamps
`current + growth - suppression` into `[0, max_area_m2]` (the derived bound
is always positive and at most 20000), and the smoke-zone update is bounded
the same way by its own derived bound. -/
theorem fire_area_always_bounded :
    (∀ (a g s e : ℚ) (pb : Option ℚ),
      0 ≤ fireTickArea a g s e pb ∧
      fireTickArea a g s e pb ≤
        round2 (fireMaxArea e pb (fireCurrentArea a)) ∧
      0 < fireMaxArea e pb (fireCurrentArea a) ∧
      fireMaxArea e pb (fireCurrentArea a) ≤ 20000) ∧
    (∀ (a : ℚ) (t : ℚ × ℚ × ℚ × Option ℚ) (ts : List (ℚ × ℚ × ℚ × Option ℚ)),
      0 ≤ foldFireTicks a (t :: ts) ∧ foldFireTicks a (t :: ts) ≤ 20000) ∧
    (∀ c g d m : ℚ,
      0 ≤ smokeNextAreaStored c g d m ∧
      (0 < m → smokeNextAreaStored c g d m ≤ round2 m)) := by
  refine ⟨?_, ?_, ?_⟩
  · intro a g s e pb
    refine ⟨(fireTickArea_bounds a g s e pb).1, ?_,
      fireMaxArea_pos _ _ _, fireMaxArea_le _ _ _⟩
    unfold fireTickArea
    exact fireNextAreaStored_le _ _ _ _ (fireMaxArea_pos _ _ _)
  · intro a t ts
    have hstep := fireTickArea_bounds a t.1 t.2.1 t.2.2.1 t.2.2.2
    exact foldFireTicks_bounds_aux ts _ hstep.1 hstep.2
  · intro c g d m
    constructor
    · by_cases hm : 0 < m
      · simp only [smokeNextAreaStored, if_pos hm]
        exact round2_nonneg (le_min (le_trans (by norm_num) (le_max_left _ _))
          (le_of_lt hm))
      · simp only [smokeNextAreaStored, if_neg hm]
        exact round2_nonneg (le_trans (by norm_num) (le_max_left _ _))
    · intro hm
      simp only [smokeNextAreaStored, if_pos hm]
      exact round2_mono (min_le_right _ _)

/-- C4 witness: the smoke conjunct (the only one with a hypothesis)
evaluated at a concrete bound. -/
theorem fire_area_always_bounded_witness :
    0 ≤ smokeNextAreaStored 10 5 1 100 ∧
    smokeNextAreaStored 10 5 1 100 ≤ round2 100 :=
  ⟨(fire_area_always_bounded.2.2 10 5 1 100).1,
    (fire_area_always_bounded.2.2 10 5 1 100).2 (by norm_num)⟩

theorem resolve_combat_area_role_cases {roles : List UserRole} {bu : UserRole}
    (h : resolve_combat_area_role_for_user roles = some bu) :
    bu = UserRole.COMBAT_AREA_1 ∨ bu = UserRole.COMBAT_AREA_2 := by
  unfold resolve_combat_area_role_for_user at h
  split_ifs at h
  · exact Or.inl (Option.some.inj h).symm
  · exact Or.inr (Option.some.inj h).symm

theorem combat_gate_blocks {deployments : List DeploymentRecord}
    {roles : List UserRole} {bu : UserRole}
    (hres : resolve_combat_area_role_for_user roles = some bu)
    (hhas : has_rtp_command_point_for_combat_area deployments bu = false) :
    ∃ e, assert_combat_area_is_activated_by_rtp deployments roles = .error e ∧
      e.status_code = 409 ∧ mentionsRTP e.detail = true := by
  unfold assert_combat_area_is_activated_by_rtp
  rw [hres]
  dsimp only
  rw [if_neg (by rw [hhas]; exact Bool.false_ne_true)]
  refine ⟨_, rfl, rfl, ?_⟩
  rcases resolve_combat_area_role_cases hres with hbu | hbu <;> subst hbu <;> decide

theorem fireTick_crashed_of_deployments (fires : List String)
    (ds : List DeploymentRecord) (hf : fires ≠ []) (hds : ds ≠ []) :
    apply_fire_dynamics_tick_outcome fires ds =
      .crashed resourceKindHoseSplitterError := by
  unfold apply_fire_dynamics_tick_outcome
  rw [if_neg (fun h => hf (List.isEmpty_iff.mp h))]
  cases ds with
  | nil => exact absurd rfl hds
  | cons d tail => rfl

theorem fireTick_completed_empty {fires : List String}
    {ds hs ns vs : List DeploymentRecord}
    (h : apply_fire_dynamics_tick_outcome fires ds = .completed hs ns vs) :
    ds = [] ∧ hs = [] ∧ ns = [] ∧ vs = [] := by
  unfold apply_fire_dynamics_tick_outcome at h
  by_cases hf : fires.isEmpty
  · rw [if_pos hf] at h
    exact absurd h (by simp)
  · rw [if_neg hf] at h
    cases ds with
    | nil =>
        simp only [buildSplitterEntries, List.filter_nil,
          FireTickOutcome.completed.injEq] at h
        exact ⟨rfl, h.1.symm, h.2.1.symm, h.2.2.symm⟩
    | cons d tail => exact absurd h (by simp [buildSplitterEntries])

/-- C5: the claim says every runtime tick re-reads a vehicle's persisted
`water_remaining_l` clamped into [0, capacity], draws the nozzle demands
and writes the rounded remainder back, keeping the value in [0, capacity]
and non-increasing.  That accounting (ws.py lines 1568-1581, 1820-1827,
1877-1893) is dead code: `apply_fire_dynamics_tick` evaluates the missing
`ResourceKind.HOSE_SPLITTER` at line 1431, so a tick over a snapshot with
fire objects and any deployment — in particular a vehicle deployment —
raises `AttributeError` before the water code, the uncommitted transaction
leaves the persisted state unchanged, and a tick that does complete had no
deployments at all, so its `vehicle_runtime` is empty and no
`water_remaining_l` is ever written. -/
theorem vehicle_water_accounting_is_dead_code
    (fires : List String) (d : DeploymentRecord) (ds : List DeploymentRecord)
    (hf : fires ≠ []) (_hk : d.resource_kind = ResourceKind.VEHICLE) :
    apply_fire_dynamics_tick_outcome fires (d :: ds) =
      .crashed (.attributeError "HOSE_SPLITTER") ∧
    (∀ (persisted : List DeploymentRecord),
      commitOnSuccess persisted (.error resourceKindHoseSplitterError) =
        persisted) ∧
    (∀ (fires2 : List String) (ds2 hs ns vs : List DeploymentRecord),
      apply_fire_dynamics_tick_outcome fires2 ds2 = .completed hs ns vs →
        ds2 = [] ∧ vs = []) := by
  refine ⟨fireTick_crashed_of_deployments fires (d :: ds) hf (by simp),
    fun _ => rfl, ?_⟩
  intro fires2 ds2 hs ns vs h
  obtain ⟨h1, _, _, h4⟩ := fireTick_completed_empty h
  exact ⟨h1, h4⟩

/-- C5 witness: one fire object and one deployed vehicle deployment. -/
theorem vehicle_water_accounting_is_dead_code_witness :
    apply_fire_dynamics_tick_outcome ["fire-1"]
        [⟨ResourceKind.VEHICLE, DeploymentStatus.DEPLOYED, none, none, none⟩] =
      .crashed (.attributeError "HOSE_SPLITTER") ∧
    (∀ (persisted : List DeploymentRecord),
      commitOnSuccess persisted (.error resourceKindHoseSplitterError) =
        persisted) ∧
    (∀ (fires2 : List String) (ds2 hs ns vs : List DeploymentRecord),
      apply_fire_dynamics_tick_outcome fires2 ds2 = .completed hs ns vs →
        ds2 = [] ∧ vs = []) :=
  vehicle_water_accounting_is_dead_code ["fire-1"]
    ⟨ResourceKind.VEHICLE, DeploymentStatus.DEPLOYED, none, none, none⟩ []
    (by decide) rfl

/-- C6: the claim says a strict-chain nozzle that cannot resolve a vehicle
with water ends the tick as a runtime entry with `has_water = false` and a
coded `blocked_reason`.  The per-nozzle resolution (ws.py lines 1895-2014)
is dead code: with fire objects present, any deployment — in particular an
active nozzle — makes `apply_fire_dynamics_tick` raise `AttributeError` at
line 1431 before the nozzle loop, so the tick persists nothing; and a tick
that completes had no deployments, so `nozzle_runtime` is empty and no
entry (blocked or otherwise) is ever produced. -/
theorem nozzle_blocked_reason_is_dead_code
    (fires : List String) (ds : List DeploymentRecord) (d : DeploymentRecord)
    (hf : fires ≠ []) (hd : d ∈ ds)
    (_hk : d.resource_kind = ResourceKind.NOZZLE)
    (_hs : d.status = DeploymentStatus.ACTIVE) :
    apply_fire_dynamics_tick_outcome fires ds =
      .crashed (.attributeError "HOSE_SPLITTER") ∧
    (∀ (fires2 : List String) (ds2 hs ns vs : List DeploymentRecord),
      apply_fire_dynamics_tick_outcome fires2 ds2 = .completed hs ns vs →
        ns = []) := by
  refine ⟨fireTick_crashed_of_deployments fires ds hf (List.ne_nil_of_mem hd), ?_⟩
  intro fires2 ds2 hs ns vs h
  exact (fireTick_completed_empty h).2.2.1

/-- C6 witness: one fire object and one active nozzle deployment. -/
theorem nozzle_blocked_reason_is_dead_code_witness :
    apply_fire_dynamics_tick_outcome ["fire-1"]
        [⟨ResourceKind.NOZZLE, DeploymentStatus.ACTIVE, none, none, none⟩] =
      .crashed (.attributeError "HOSE_SPLITTER") ∧
    (∀ (fires2 : List String) (ds2 hs ns vs : List DeploymentRecord),
      apply_fire_dynamics_tick_outcome fires2 ds2 = .completed hs ns vs →
        ns = []) :=
  nozzle_blocked_reason_is_dead_code ["fire-1"]
    [⟨ResourceKind.NOZZLE, DeploymentStatus.ACTIVE, none, none, none⟩]
    ⟨ResourceKind.NOZZLE, DeploymentStatus.ACTIVE, none, none, none⟩
    (by decide) (by decide) rfl rfl

/-- C7: the claim says nozzles sharing a hose splitter split its pressure as
1/sqrt(branch count).  No such tick can occur: a HOSE_SPLITTER deployment
cannot even be created, because `parse_enum(ResourceKind, "HOSE_SPLITTER",
"resource_kind")` (ws.py lines 3931-3935) raises HTTP 422 — the member is
absent from enums.py — and any snapshot with fire objects and at least one
deployment of whatever kind makes `apply_fire_dynamics_tick` raise
`AttributeError` at line 1431, before the splitter branch counting (lines
1953-1966) runs. -/
theorem splitter_pressure_resolution_is_dead_code
    (fires : List String) (ds : List DeploymentRecord)
    (hf : fires ≠ []) (hds : ds ≠ []) :
    parse_resource_kind "HOSE_SPLITTER" =
      .error ⟨422,
        "resource_kind must be one of: VEHICLE, HOSE_LINE, NOZZLE, WATER_SOURCE, CREW, MARKER"⟩ ∧
    (∀ k : ResourceKind, parse_resource_kind "HOSE_SPLITTER" ≠ .ok k) ∧
    apply_fire_dynamics_tick_outcome fires ds =
      .crashed (.attributeError "HOSE_SPLITTER") := by
  refine ⟨rfl, ?_, fireTick_crashed_of_deployments fires ds hf hds⟩
  intro k h
  rw [show parse_resource_kind "HOSE_SPLITTER" =
    Except.error (⟨422,
      "resource_kind must be one of: VEHICLE, HOSE_LINE, NOZZLE, WATER_SOURCE, CREW, MARKER"⟩ :
      WsError) from rfl] at h
  exact Except.noConfusion h

/-- C7 witness: one fire object and one deployed hose-line deployment. -/
theorem splitter_pressure_resolution_is_dead_code_witness :
    parse_resource_kind "HOSE_SPLITTER" =
      .error ⟨422,
        "resource_kind must be one of: VEHICLE, HOSE_LINE, NOZZLE, WATER_SOURCE, CREW, MARKER"⟩ ∧
    (∀ k : ResourceKind, parse_resource_kind "HOSE_SPLITTER" ≠ .ok k) ∧
    apply_fire_dynamics_tick_outcome ["fire-1"]
        [⟨ResourceKind.HOSE_LINE, DeploymentStatus.DEPLOYED, none, none, none⟩] =
      .crashed (.attributeError "HOSE_SPLITTER") :=
  splitter_pressure_resolution_is_dead_code ["fire-1"]
    [⟨ResourceKind.HOSE_LINE, DeploymentStatus.DEPLOYED, none, none, none⟩]
    (by decide) (by decide)

/-- C8: the claim says a combat-area user creating a deployment without the
area's RTP command-point marker gets a 409 conflict naming РТП.  The user
never reaches that gate: `assert_deployment_workflow_allowed_for_role`
evaluates the missing `ResourceKind.HOSE_SPLITTER` at ws.py line 932 for
every combat-area user, so `create_resource_deployment` raises
`AttributeError` before `assert_combat_area_is_activated_by_rtp` (line
3980), the client receives the generic `INTERNAL_ERROR` frame — no 409
status, detail not mentioning РТП — and nothing is persisted. -/
theorem combat_area_create_crashes_before_rtp_gate
    (deployments : List DeploymentRecord) (roles : List UserRole)
    (p : CreateDeploymentPayload)
    (ha : UserRole.ADMIN ∉ roles) (ht : UserRole.TRAINING_LEAD ∉ roles)
    (hdis : UserRole.DISPATCHER ∉ roles) (hhq : UserRole.HQ ∉ roles)
    (hrtp : UserRole.RTP ∉ roles)
    (hbu : UserRole.COMBAT_AREA_1 ∈ roles ∨ UserRole.COMBAT_AREA_2 ∈ roles)
    (hlabel : ¬ pyStrip p.label = "") (hlen : p.label.length ≤ 255)
    (hvdi : ¬ p.vehicle_dictionary_id = some 0)
    (hrot : (match p.rotation_deg with
      | some r => decide (359 < r)
      | none => false) = false) :
    apply_create_resource_deployment deployments roles p =
      .error (.attributeError "HOSE_SPLITTER") ∧
    wsErrorFrame (.attributeError "HOSE_SPLITTER") =
      ⟨"INTERNAL_ERROR", "Internal realtime server error", none⟩ ∧
    mentionsRTP "Internal realtime server error" = false ∧
    commitOnSuccess deployments
      (apply_create_resource_deployment deployments roles p) = deployments := by
  have hres : ∃ bu, resolve_combat_area_role_for_user roles = some bu := by
    unfold resolve_combat_area_role_for_user
    rcases hbu with h1 | h2
    · rw [if_pos h1]; exact ⟨_, rfl⟩
    · by_cases hc1 : UserRole.COMBAT_AREA_1 ∈ roles
      · rw [if_pos hc1]; exact ⟨_, rfl⟩
      · rw [if_neg hc1, if_pos h2]; exact ⟨_, rfl⟩
  obtain ⟨bu, hres⟩ := hres
  have hw : assert_deployment_workflow_allowed_for_role roles p.resource_kind
      p.status (normalize_resource_role_tag p.role) p.plan_only
      p.command_point = .error resourceKindHoseSplitterError := by
    unfold assert_deployment_workflow_allowed_for_role
    rw [if_neg (by push_neg; exact ⟨ha, ht⟩), if_neg hdis, if_neg hhq,
      if_neg hrtp, hres]
  have hmain : apply_create_resource_deployment deployments roles p =
      .error (.attributeError "HOSE_SPLITTER") := by
    unfold apply_create_resource_deployment
    rw [if_neg hlabel, if_neg (by omega), if_neg hvdi,
      if_neg (by rw [hrot]; exact Bool.false_ne_true), hw]
    rfl
  exact ⟨hmain, rfl, by decide, by rw [hmain]; rfl⟩

/-- C8 witness: a plain COMBAT_AREA_1 user creating a vehicle deployment on
an empty snapshot. -/
theorem combat_area_create_crashes_before_rtp_gate_witness :
    apply_create_resource_deployment [] [UserRole.COMBAT_AREA_1]
        ⟨ResourceKind.VEHICLE, DeploymentStatus.PLANNED, "АЦ-40", none, none,
          none, none, none, false, none, none, none⟩ =
      .error (.attributeError "HOSE_SPLITTER") ∧
    wsErrorFrame (.attributeError "HOSE_SPLITTER") =
      ⟨"INTERNAL_ERROR", "Internal realtime server error", none⟩ ∧
    mentionsRTP "Internal realtime server error" = false ∧
    commitOnSuccess []
      (apply_create_resource_deployment [] [UserRole.COMBAT_AREA_1]
        ⟨ResourceKind.VEHICLE, DeploymentStatus.PLANNED, "АЦ-40", none, none,
          none, none, none, false, none, none, none⟩) = [] :=
  combat_area_create_crashes_before_rtp_gate [] [UserRole.COMBAT_AREA_1]
    ⟨ResourceKind.VEHICLE, DeploymentStatus.PLANNED, "АЦ-40", none, none,
      none, none, none, false, none, none, none⟩
    (by decide) (by decide) (by decide) (by decide) (by decide) (by decide)
    (by decide) (by decide) (by decide) rfl

/-- C9: the claim (as amended) concerns the `blocked_reason` carried by
hose-line and nozzle runtime entries after a tick.  No such entry ever
exists: with fire objects present, any deployment — in particular a
hose-line — makes `apply_fire_dynamics_tick` raise `AttributeError` at
ws.py line 1431 before `hose_runtime` (line 1519) or `nozzle_runtime`
(line 1658) is populated, and a tick that completes had no deployments, so
both maps are empty. -/
theorem hose_runtime_construction_is_dead_code
    (fires : List String) (ds : List DeploymentRecord) (d : DeploymentRecord)
    (hf : fires ≠ []) (hd : d ∈ ds)
    (_hk : d.resource_kind = ResourceKind.HOSE_LINE) :
    apply_fire_dynamics_tick_outcome fires ds =
      .crashed (.attributeError "HOSE_SPLITTER") ∧
    (∀ (fires2 : List String) (ds2 hs ns vs : List DeploymentRecord),
      apply_fire_dynamics_tick_outcome fires2 ds2 = .completed hs ns vs →
        hs = [] ∧ ns = []) := by
  refine ⟨fireTick_crashed_of_deployments fires ds hf (List.ne_nil_of_mem hd), ?_⟩
  intro fires2 ds2 hs ns vs h
  obtain ⟨_, h2, h3, _⟩ := fireTick_completed_empty h
  exact ⟨h2, h3⟩

/-- C9 witness: one fire object and one deployed hose-line deployment. -/
theorem hose_runtime_construction_is_dead_code_witness :
    apply_fire_dynamics_tick_outcome ["fire-1"]
        [⟨ResourceKind.HOSE_LINE, DeploymentStatus.DEPLOYED, none, none, none⟩] =
      .crashed (.attributeError "HOSE_SPLITTER") ∧
    (∀ (fires2 : List String) (ds2 hs ns vs : List DeploymentRecord),
      apply_fire_dynamics_tick_outcome fires2 ds2 = .completed hs ns vs →
        hs = [] ∧ ns = []) :=
  hose_runtime_construction_is_dead_code ["fire-1"]
    [⟨ResourceKind.HOSE_LINE, DeploymentStatus.DEPLOYED, none, none, none⟩]
    ⟨ResourceKind.HOSE_LINE, DeploymentStatus.DEPLOYED, none, none, none⟩
    (by decide) (by decide) rfl

/-- C10: `set_radio_interference` is listed in the command table with the
`admin:manage` permission and an ADMIN-only allow-list, yet its handler
unconditionally raises HTTP 410 "Radio interference is disabled" before the
commit, so the command never succeeds for any user and never persists a
state change (an ADMIN gets the 410, everyone else a 403 from the
allow-list). -/
theorem set_radio_interference_always_fails :
    WS_COMMAND_PERMISSIONS "set_radio_interference" = some "admin:manage" ∧
    WS_COMMAND_ALLOWED_ROLES "set_radio_interference" = some [UserRole.ADMIN] ∧
    (∀ i : Option String, (apply_set_radio_interference_command i).2 =
      .error ⟨410, "Radio interference is disabled"⟩) ∧
    (∀ (roles : List UserRole) (i : Option String),
      ∃ e, applyRealtimeSetRadioInterference roles i = .error e) ∧
    (∀ (roles : List UserRole) (i : Option String), UserRole.ADMIN ∈ roles →
      applyRealtimeSetRadioInterference roles i =
        .error ⟨410, "Radio interference is disabled"⟩) ∧
    (∀ (roles : List UserRole) (i : Option String),
      commitSetRadioInterference roles i = i) := by
  have htable : WS_COMMAND_ALLOWED_ROLES "set_radio_interference" =
      some [UserRole.ADMIN] := by decide
  have hrolecheck : ∀ roles : List UserRole,
      assert_role_allowed_for_command roles "set_radio_interference" = .ok () ∨
      ∃ e, assert_role_allowed_for_command roles "set_radio_interference" =
        .error e := by
    intro roles
    unfold assert_role_allowed_for_command
    rw [htable]
    dsimp only
    split_ifs with h
    · exact Or.inl rfl
    · exact Or.inr ⟨_, rfl⟩
  refine ⟨by decide, htable, fun i => rfl, ?_, ?_, ?_⟩
  · intro roles i
    unfold applyRealtimeSetRadioInterference
    rcases hrolecheck roles with h | ⟨e, h⟩ <;> rw [h]
    · exact ⟨_, rfl⟩
    · exact ⟨e, rfl⟩
  · intro roles i hadmin
    unfold applyRealtimeSetRadioInterference
    have hok : assert_role_allowed_for_command roles "set_radio_interference" =
        .ok () := by
      unfold assert_role_allowed_for_command
      rw [htable]
      dsimp only
      rw [if_pos]
      rw [List.any_eq_true]
      exact ⟨UserRole.ADMIN, hadmin, by decide⟩
    rw [hok]
    rfl
  · intro roles i
    unfold commitSetRadioInterference
    obtain ⟨e, he⟩ :=
      (show ∀ (roles : List UserRole) (i : Option String),
          ∃ e, applyRealtimeSetRadioInterference roles i = .error e from by
        intro roles i
        unfold applyRealtimeSetRadioInterference
        rcases hrolecheck roles with h | ⟨e, h⟩ <;> rw [h]
        · exact ⟨_, rfl⟩
        · exact ⟨e, rfl⟩) roles i
    rw [he]

/-- C10 witness: an ADMIN invoking the command. -/
theorem set_radio_interference_always_fails_witness :
    applyRealtimeSetRadioInterference [UserRole.ADMIN] (some "CH1") =
      .error ⟨410, "Radio interference is disabled"⟩ :=
  set_radio_interference_always_fails.2.2.2.2.1 [UserRole.ADMIN] (some "CH1")
    (by decide)

end MchsWs
